import Mathlib

/-!
Verification of the etabs LaTeX table generator.

This file shallowly embeds src/etabs/tex_table_cell.py and
src/etabs/tex_table.py. Python reference semantics are modelled with an
arena of cell records and a grid of indices into it: two grid slots hold
the same cell object exactly when they hold the same arena index. Raised
exceptions (ValueError, IndexError, AssertionError) become the error side
of Except. Definitions follow the source line by line; the few places
where the source constructs an exception without raising it are kept as
such and marked with a comment.
-/

/-- Errors raised by the embedded code: ValueError with its message,
IndexError from list indexing, and AssertionError from assert statements. -/
inductive TexError where
  | valueError : String → TexError
  | indexError : TexError
  | assertionError : String → TexError
  deriving DecidableEq, Repr

/-- Python list read l[n] for a nonnegative index n: IndexError when out of range. -/
def exGet {α : Type} (l : List α) (n : Nat) : Except TexError α :=
  match l.get? n with
  | some a => Except.ok a
  | none => Except.error TexError.indexError

/-- Sequencing of embedded statements: a raised exception propagates, a
normal result feeds the next statement. -/
def exbind {α β : Type} (x : Except TexError α) (f : α → Except TexError β) :
    Except TexError β :=
  match x with
  | Except.error e => Except.error e
  | Except.ok a => f a

@[simp] theorem exbind_ok {α β : Type} (a : α) (f : α → Except TexError β) :
    exbind (Except.ok a) f = f a := rfl

@[simp] theorem exbind_error {α β : Type} (e : TexError)
    (f : α → Except TexError β) : exbind (Except.error e) f = Except.error e := rfl

/-- Python nested list read g[r][c] for nonnegative indices. -/
def exGet2 {α : Type} (g : List (List α)) (r c : Nat) : Except TexError α :=
  exbind (exGet g r) (fun row => exGet row c)

/-- True exactly on a normal (non-raising) result. -/
def exIsOk {α : Type} : Except TexError α → Bool
  | Except.ok _ => true
  | Except.error _ => false

instance {α β : Type} [DecidableEq α] [DecidableEq β] :
    DecidableEq (Except α β) := fun x y =>
  match x, y with
  | Except.ok a, Except.ok b =>
    if h : a = b then Decidable.isTrue (congrArg Except.ok h)
    else Decidable.isFalse (fun hh => h (Except.ok.inj hh))
  | Except.error a, Except.error b =>
    if h : a = b then Decidable.isTrue (congrArg Except.error h)
    else Decidable.isFalse (fun hh => h (Except.error.inj hh))
  | Except.ok _, Except.error _ => Decidable.isFalse (fun hh => Except.noConfusion hh)
  | Except.error _, Except.ok _ => Decidable.isFalse (fun hh => Except.noConfusion hh)

/-- One cell of the table, mirroring TexTableCell.__init__. The rotation and
background-color attributes are set dynamically by slice setters in the source
and never read by any rendering code, so they are not part of the model. -/
structure TexTableCell where
  raw_value : String
  row : Nat
  col : Nat
  width : Nat
  height : Nat
  bold : Bool
  italic : Bool
  l_sep : String
  r_sep : String
  deriving DecidableEq, Repr

/-- TexTableCell constructed with the default width=1, height=1 and
bold=italic=False, as add_row and add_col do. -/
def TexTableCell.mk1 (value : String) (row col : Nat) (l_sep r_sep : String) :
    TexTableCell :=
  { raw_value := value, row := row, col := col, width := 1, height := 1,
    bold := false, italic := false, l_sep := l_sep, r_sep := r_sep }

/-- TexTableCell.bounds: the inclusive rectangle occupied by the cell,
computed in Int exactly as the Python int expressions. -/
def TexTableCell.bounds (c : TexTableCell) : Int × Int × Int × Int :=
  ((c.row : Int), (c.col : Int),
   (c.row : Int) + (c.height : Int) - 1, (c.col : Int) + (c.width : Int) - 1)

/-- TexTableCell.styled_value: raw value wrapped in bold then italic markup. -/
def TexTableCell.styled_value (c : TexTableCell) : String :=
  let ans := c.raw_value
  let ans := if c.bold then "\\textbf\x7b" ++ ans ++ "\x7d" else ans
  if c.italic then "\\textit\x7b" ++ ans ++ "\x7d" else ans

/-- TexTableCell.__getitem__, called render_at in the specification: the text
this cell contributes at physical slot (row, col). The two leading asserts
are the source assert statements. -/
def TexTableCell.render_at (c : TexTableCell) (row col : Nat) :
    Except TexError String :=
  if ¬(c.row ≤ row ∧ row < c.row + c.height) then
    Except.error (TexError.assertionError ("Row out of bounds"))
  else if ¬(c.col ≤ col ∧ col < c.col + c.width) then
    Except.error (TexError.assertionError ("Col out of bounds"))
  else if c.width = 1 ∧ c.height = 1 then
    Except.ok c.styled_value
  else if row = c.row ∧ col = c.col then
    let ans := c.styled_value
    let col_style := c.l_sep ++ "c" ++ c.r_sep
    let ans := if 1 < c.height then
        "\\multirow\x7b" ++ toString c.height ++ "\x7d\x7b*\x7d\x7b" ++ ans ++ "\x7d"
      else ans
    let ans := if 1 < c.width then
        "\\multicolumn\x7b" ++ toString c.width ++ "\x7d\x7b" ++ col_style
          ++ "\x7d\x7b" ++ ans ++ "\x7d"
      else ans
    Except.ok ans
  else
    Except.ok ""

/-- TexTableCell.table_value: render_at plus the column separator token when
the slot is not on the anchor row or is the rightmost column of the span. -/
def TexTableCell.table_value (c : TexTableCell) (row col : Nat) :
    Except TexError String :=
  if ¬(c.row ≤ row ∧ row < c.row + c.height) then
    Except.error (TexError.assertionError ("Row out of bounds"))
  else if ¬(c.col ≤ col ∧ col < c.col + c.width) then
    Except.error (TexError.assertionError ("Col out of bounds"))
  else
    match c.render_at row col with
    | Except.error e => Except.error e
    | Except.ok ans =>
      if row ≠ c.row ∨ col = c.col + c.width - 1 then Except.ok (ans ++ " & ")
      else Except.ok ans

/-- On any slot inside the occupied rectangle, render_at succeeds. -/
theorem render_at_ok (c : TexTableCell) (row col : Nat)
    (h1 : c.row ≤ row) (h2 : row < c.row + c.height)
    (h3 : c.col ≤ col) (h4 : col < c.col + c.width) :
    ∃ s, c.render_at row col = Except.ok s := by
  unfold TexTableCell.render_at
  rw [if_neg (not_not_intro ⟨h1, h2⟩), if_neg (not_not_intro ⟨h3, h4⟩)]
  split
  · exact ⟨_, rfl⟩
  · split
    · exact ⟨_, rfl⟩
    · exact ⟨_, rfl⟩

/-- C1: for every cell and every physical slot (row, col) inside the occupied
rectangle, table_value equals render_at with the separator token " & "
appended exactly when row is not the anchor row or col is the rightmost
column of the span, and equals render_at unchanged exactly when row is the
anchor row and col is not the rightmost column of the span. -/
theorem C1_table_value_separator (c : TexTableCell) (row col : Nat)
    (h1 : c.row ≤ row) (h2 : row < c.row + c.height)
    (h3 : c.col ≤ col) (h4 : col < c.col + c.width) :
    ∃ base, c.render_at row col = Except.ok base ∧
      ((row ≠ c.row ∨ col = c.col + c.width - 1) →
        c.table_value row col = Except.ok (base ++ " & ")) ∧
      ((row = c.row ∧ col ≠ c.col + c.width - 1) →
        c.table_value row col = Except.ok base) := by
  obtain ⟨base, hb⟩ := render_at_ok c row col h1 h2 h3 h4
  refine ⟨base, hb, ?_, ?_⟩
  · intro hc
    unfold TexTableCell.table_value
    rw [if_neg (not_not_intro ⟨h1, h2⟩), if_neg (not_not_intro ⟨h3, h4⟩), hb]
    exact if_pos hc
  · intro hc
    unfold TexTableCell.table_value
    rw [if_neg (not_not_intro ⟨h1, h2⟩), if_neg (not_not_intro ⟨h3, h4⟩), hb]
    exact if_neg (by simp [hc.1, hc.2])

/-- A 2 by 2 spanning cell used to instantiate C1. -/
def c1cell : TexTableCell :=
  { raw_value := "v", row := 0, col := 0, width := 2, height := 2,
    bold := false, italic := false, l_sep := "", r_sep := "" }

/-- Witness for C1 at the slot (1, 1) of a 2x2 cell anchored at (0, 0). -/
theorem C1_table_value_separator_witness :
    ∃ base, c1cell.render_at 1 1 = Except.ok base ∧
      ((1 ≠ c1cell.row ∨ 1 = c1cell.col + c1cell.width - 1) →
        c1cell.table_value 1 1 = Except.ok (base ++ " & ")) ∧
      ((1 = c1cell.row ∧ 1 ≠ c1cell.col + c1cell.width - 1) →
        c1cell.table_value 1 1 = Except.ok base) :=
  C1_table_value_separator c1cell 1 1 (by decide) (by decide) (by decide)
    (by decide)

/-- The three rule kinds of the RuleType enum. -/
inductive RuleType where
  | TOP
  | MID
  | BOTTOM
  deriving DecidableEq, Repr

/-- TexTable._depends_on: idempotent insertion into the dependency set,
modelled as append-if-absent on a duplicate-free list. -/
def depAdd (l : List String) (d : String) : List String :=
  if d ∈ l then l else l ++ [d]

/-- The table state of TexTable.__init__. The Python grid of shared cell
references is modelled as a grid of indices (table) into an append-only
arena of cell records: slots alias the same Python object exactly when they
carry the same index. -/
structure TexTable where
  col_styles : List String
  seps : List String
  centered : Bool
  caption : Option String
  caption_after_table : Bool
  position : String
  star : Bool
  empty_value : String
  label : Option String
  cmd : String
  arena : List TexTableCell
  table : List (List Nat)
  dependencies : List String
  rules : List (Int × String)
  lines : List (Int × String)
  deriving DecidableEq, Repr

/-- TexTable() with all construction parameters left at their defaults. -/
def TexTable.new : TexTable :=
  { col_styles := [], seps := [], centered := true, caption := none,
    caption_after_table := false, position := "h!", star := false,
    empty_value := "", label := none, cmd := "figure", arena := [],
    table := [], dependencies := [], rules := [], lines := [] }

/-- TexTable.col_count. -/
def TexTable.col_count (t : TexTable) : Nat := t.col_styles.length

/-- TexTable.row_count. -/
def TexTable.row_count (t : TexTable) : Nat := t.table.length

/-- TexTable.add_rule: records (row, rule-text) with row defaulting to the
current number of rows. The unreachable branch for an unrecognized rule kind
cannot be expressed on a closed enum and is omitted. -/
def TexTable.add_rule (t : TexTable) (row : Option Int) (rule_type : RuleType) :
    TexTable :=
  let t := { t with dependencies := depAdd t.dependencies "booktabs" }
  let rule := match rule_type with
    | RuleType.TOP => "\\toprule"
    | RuleType.MID => "\\midrule"
    | RuleType.BOTTOM => "\\bottomrule"
  { t with rules := t.rules ++ [(row.getD (Int.ofNat t.table.length), rule)] }

/-- TexTable.add_cline. The source builds the text with one trailing space
and immediately strips it, so the text is built here without it. -/
def TexTable.add_cline (t : TexTable) (row : Option Int) (from_col : Int)
    (to_col : Option Int) : TexTable :=
  let t := { t with dependencies := depAdd t.dependencies "booktabs" }
  let tc := to_col.getD (Int.ofNat t.col_count - 1)
  let r := row.getD (Int.ofNat t.table.length)
  let line := "\\cline\x7b" ++ toString (from_col + 1) ++ "-"
    ++ toString (tc + 1) ++ "\x7d"
  { t with lines := t.lines ++ [(r, line)] }

/-- TexTable.add_cmidrule, with the same trailing-space strip as add_cline. -/
def TexTable.add_cmidrule (t : TexTable) (row : Option Int) (from_col : Int)
    (to_col : Option Int) (options : String) : TexTable :=
  let t := { t with dependencies := depAdd t.dependencies "booktabs" }
  let tc := to_col.getD (Int.ofNat t.col_count - 1)
  let r := row.getD (Int.ofNat t.table.length)
  let line := "\\cmidrule(" ++ options ++ ")\x7b" ++ toString (from_col + 1)
    ++ "-" ++ toString (tc + 1) ++ "\x7d"
  { t with lines := t.lines ++ [(r, line)] }

/-- The fresh 1x1 cells of one new row: cell i carries value vals[i], the row
index r and column i, and captures seps[i] and seps[i+1], raising IndexError
exactly where the Python list reads would. -/
def mkRowCells (seps : List String) (r : Nat) :
    Nat → List String → Except TexError (List TexTableCell)
  | _, [] => Except.ok []
  | i, v :: vs =>
    match exGet seps i, exGet seps (i + 1) with
    | Except.ok l, Except.ok rr =>
      match mkRowCells seps r (i + 1) vs with
      | Except.ok rest => Except.ok (TexTableCell.mk1 v r i l rr :: rest)
      | Except.error e => Except.error e
    | Except.error e, _ => Except.error e
    | _, Except.error e => Except.error e

/-- self.table.append([...]): the fresh cells enter the arena and the new row
holds their indices. -/
def TexTable.appendRowCells (t : TexTable) (cells : List TexTableCell) :
    TexTable :=
  { t with
    arena := t.arena ++ cells,
    table := t.table ++ [(List.range cells.length).map (fun i => t.arena.length + i)] }

/-- TexTable.add_row() with no values: the empty value list is padded to
col_count empty values and appended as a fresh row (this call never grows
the column count, breaking the mutual recursion of the source). -/
def TexTable.add_row_empty (t : TexTable) : Except TexError TexTable :=
  match mkRowCells t.seps t.table.length 0 (List.replicate t.col_count t.empty_value) with
  | Except.error e => Except.error e
  | Except.ok cells => Except.ok (t.appendRowCells cells)

/-- n-fold monadic iteration, for the grow-by-k loops of add_row and add_col. -/
def iterExcept {α : Type} (f : α → Except TexError α) : Nat → α → Except TexError α
  | 0, a => Except.ok a
  | n + 1, a =>
    match f a with
    | Except.error e => Except.error e
    | Except.ok b => iterExcept f n b

/-- The final loop of TexTable.add_col: append one fresh cell to the end of
row i for each value, reading seps[-2] and seps[-1]. -/
def addColLoop (seps : List String) :
    Nat → List String → TexTable → Except TexError TexTable
  | _, [], t => Except.ok t
  | i, v :: vs, t =>
    match exGet t.table i with
    | Except.error e => Except.error e
    | Except.ok rowIds =>
      match exGet seps (seps.length - 2), exGet seps (seps.length - 1) with
      | Except.ok l, Except.ok r =>
        let cell := TexTableCell.mk1 v i rowIds.length l r
        addColLoop seps (i + 1) vs
          { t with
            arena := t.arena ++ [cell],
            table := t.table.set i (rowIds ++ [t.arena.length]) }
      | Except.error e, _ => Except.error e
      | _, Except.error e => Except.error e

/-- TexTable.add_col. Values are already strings: the source applies
str(prep(val)) to each argument, which is the identity on the string values
used anywhere in this development. -/
def TexTable.add_col (t : TexTable) (values : List String) (start : Nat) :
    Except TexError TexTable :=
  let styles := t.col_styles ++ ["c"]
  let seps1 := t.seps ++ [""]
  let seps2 := if styles.length = 1 then seps1 ++ [""] else seps1
  let t0 := { t with col_styles := styles, seps := seps2 }
  let vals1 := if 0 < start then List.replicate start t.empty_value ++ values
    else values
  let vals2 := if vals1.length < t0.row_count then
      vals1 ++ List.replicate (t0.row_count - vals1.length) t.empty_value
    else vals1
  match (if t0.row_count < vals1.length then
      iterExcept TexTable.add_row_empty (vals1.length - t0.row_count) t0
    else Except.ok t0) with
  | Except.error e => Except.error e
  | Except.ok t1 => addColLoop t1.seps 0 vals2 t1

/-- TexTable.add_row. A none value is replaced by the empty placeholder; the
other values are already strings as in add_col. -/
def TexTable.add_row (t : TexTable) (values : List (Option String)) (start : Nat) :
    Except TexError TexTable :=
  let vals0 := values.map (fun v => v.getD t.empty_value)
  let vals1 := if 0 < start then List.replicate start t.empty_value ++ vals0
    else vals0
  let vals2 := if vals1.length < t.col_count then
      vals1 ++ List.replicate (t.col_count - vals1.length) t.empty_value
    else vals1
  match (if t.col_count < vals1.length then
      iterExcept (fun u => u.add_col [] 0) (vals1.length - t.col_count) t
    else Except.ok t) with
  | Except.error e => Except.error e
  | Except.ok t1 =>
    match mkRowCells t1.seps t1.table.length 0 vals2 with
    | Except.error e => Except.error e
    | Except.ok cells => Except.ok (t1.appendRowCells cells)

/-- The overlap error message of TexTable.merge. -/
def mergeOverlapMsg : String :=
  "Invalid cell bounds. There is a cell inside the boundaries that is not fully contained in the merge area."

/-- Python range(a, b + 1) over Int. -/
def intRangeIncl (a b : Int) : List Int :=
  (List.range (b + 1 - a).toNat).map (fun k => a + (k : Int))

/-- The visiting order of the nested merge loops: all columns of a row, then
the next row. -/
def mergeSlots (row to_row col to_col : Int) : List (Int × Int) :=
  (intRangeIncl row to_row).flatMap
    (fun r => (intRangeIncl col to_col).map (fun c => (r, c)))

/-- The validation loop of TexTable.merge over the listed slots. The first
disjunct compares the cell anchor row against the visited row, exactly as the
source loop variable does. -/
def mergeCheck (arena : List TexTableCell) (grid : List (List Nat))
    (col to_row to_col : Int) : List (Int × Int) → Except TexError Unit
  | [] => Except.ok ()
  | p :: rest =>
    exbind (exGet2 grid p.1.toNat p.2.toNat) (fun id =>
      exbind (exGet arena id) (fun cell =>
        if cell.bounds.1 < p.1 ∨ cell.bounds.2.1 < col ∨
            to_row < cell.bounds.2.2.1 ∨ to_col < cell.bounds.2.2.2 then
          Except.error (TexError.valueError mergeOverlapMsg)
        else mergeCheck arena grid col to_row to_col rest))

/-- The assignment loop of merge: every slot of the rectangle is redirected
to the index of the new cell. -/
def updateRect (g : List (List Nat)) (r0 r1 c0 c1 id : Nat) : List (List Nat) :=
  g.enum.map (fun rc =>
    if r0 ≤ rc.1 ∧ rc.1 ≤ r1 then
      rc.2.enum.map (fun ci => if c0 ≤ ci.1 ∧ ci.1 ≤ c1 then id else ci.2)
    else rc.2)

/-- TexTable.merge. The source creates ValueError objects for conflicting or
missing width/height parameters (both width and to_col given, both height and
to_row given, or all four missing) but never raises them, so those three
checks have no effect and are omitted here; the asserts that follow them are
kept (the Python assert carries no message, the message here is the asserted
expression). -/
def TexTable.merge (t : TexTable) (value : String) (row col : Int)
    (width height to_row to_col : Option Int) : Except TexError TexTable :=
  if ¬(0 ≤ row ∧ row < (t.table.length : Int)) then
    Except.error (TexError.valueError ("Invalid row index: " ++ toString row))
  else if ¬(0 ≤ col ∧ col < (t.col_count : Int)) then
    Except.error (TexError.valueError ("Invalid column index: " ++ toString col))
  else
    exbind (match to_row, height with
      | none, none => Except.error (TexError.assertionError ("height is not None"))
      | none, some h => Except.ok (row + h - 1, h)
      | some tr, _ => Except.ok (tr, tr - row + 1) : Except TexError (Int × Int))
      (fun rh =>
      exbind (match to_col, width with
        | none, none => Except.error (TexError.assertionError ("width is not None"))
        | none, some w => Except.ok (col + w - 1, w)
        | some tc, _ => Except.ok (tc, tc - col + 1) : Except TexError (Int × Int))
        (fun cw =>
        let to_row2 := rh.1
        let height2 := rh.2
        let to_col2 := cw.1
        let width2 := cw.2
        if ¬(row ≤ to_row2 ∧ to_row2 < (t.table.length : Int)) then
          Except.error (TexError.valueError ("Invalid height: " ++ toString height2))
        else if ¬(col ≤ to_col2 ∧ to_col2 < (t.col_count : Int)) then
          Except.error (TexError.valueError ("Invalid width: " ++ toString width2))
        else
          exbind (mergeCheck t.arena t.table col to_row2 to_col2
              (mergeSlots row to_row2 col to_col2)) (fun _ =>
            let t1 := if 1 < height2 then
                { t with dependencies := depAdd t.dependencies "multirow" }
              else t
            exbind (exGet t1.seps col.toNat) (fun lsep =>
              exbind (exGet t1.seps (to_col2 + 1).toNat) (fun rsep =>
                let newCell : TexTableCell :=
                  { raw_value := value, row := row.toNat, col := col.toNat,
                    width := width2.toNat, height := height2.toNat,
                    bold := false, italic := false, l_sep := lsep, r_sep := rsep }
                Except.ok { t1 with
                  arena := t1.arena ++ [newCell],
                  table := updateRect t1.table row.toNat to_row2.toNat col.toNat
                    to_col2.toNat t1.arena.length })))))

/-- Python str.removesuffix, over the code-point list of the string. -/
def removesuffix (s suffix : String) : String :=
  if suffix.data.isSuffixOf s.data then
    String.mk (s.data.take (s.data.length - suffix.data.length))
  else s

/-- The bounds check 0 <= i < n that render applies to rule and line rows. -/
def pyIdxOk (i : Int) (n : Nat) : Bool := decide (0 ≤ i ∧ i < (n : Int))

/-- Python list.insert for a nonnegative index: past the end it appends. -/
def pyInsert {α : Type} : List α → Nat → α → List α
  | l, 0, a => a :: l
  | [], _ + 1, a => [a]
  | x :: xs, n + 1, a => x :: pyInsert xs n a

/-- Stable insertion into a list sorted ascending by the row key: the new
pair goes before the first pair whose key is not smaller. -/
def insertRule (p : Int × String) : List (Int × String) → List (Int × String)
  | [] => [p]
  | q :: rest => if q.1 < p.1 then q :: insertRule p rest else p :: q :: rest

/-- self._rules.sort(key=lambda x: x[0]): a stable ascending sort by row key,
which agrees with the stable Python sort. -/
def sortRules : List (Int × String) → List (Int × String)
  | [] => []
  | p :: rest => insertRule p (sortRules rest)

/-- The line-prepending loop of render: each registered (row, text) pair is
bounds-checked against the fixed number of rows and prepended to its row.
The getD default is never taken because the index was just validated. -/
def applyLines : List (Int × String) → List String → Except TexError (List String)
  | [], rows => Except.ok rows
  | p :: rest, rows =>
    if pyIdxOk p.1 rows.length then
      applyLines rest (rows.set p.1.toNat (p.2 ++ " " ++ rows.getD p.1.toNat ""))
    else Except.error (TexError.valueError ("Invalid line index " ++ toString p.1))

/-- The rule-inserting loop of render: rules are bounds-checked against the
current, growing list of rows and inserted at their row plus the number of
rules already inserted. -/
def applyRules : List (Int × String) → Nat → List String → Except TexError (List String)
  | [], _, rows => Except.ok rows
  | p :: rest, added, rows =>
    if pyIdxOk p.1 rows.length then
      applyRules rest (added + 1) (pyInsert rows (p.1.toNat + added) p.2)
    else Except.error (TexError.valueError ("Invalid rule index " ++ toString p.1))

/-- The per-row comprehension of render: table_value of every cell of the row
in column order. -/
def renderCells (arena : List TexTableCell) (r : Nat) :
    Nat → List Nat → Except TexError (List String)
  | _, [] => Except.ok []
  | c, id :: rest =>
    exbind (exGet arena id) (fun cell =>
      exbind (cell.table_value r c) (fun s =>
        exbind (renderCells arena r (c + 1) rest) (fun tail =>
          Except.ok (s :: tail))))

/-- The row comprehension of render: joined cell texts with one trailing
separator removed, plus the row terminator. -/
def renderRows (arena : List TexTableCell) :
    Nat → List (List Nat) → Except TexError (List String)
  | _, [] => Except.ok []
  | r, ids :: rest =>
    exbind (renderCells arena r 0 ids) (fun parts =>
      exbind (renderRows arena (r + 1) rest) (fun tail =>
        Except.ok ((removesuffix (String.join parts) " & " ++ " \\\\") :: tail)))

/-- TexTable._str_col_sty: separator-style pairs concatenated, plus the final
separator read with seps[-1], an IndexError on an empty separator list. -/
def TexTable.str_col_sty (t : TexTable) : Except TexError String :=
  let base := (t.seps.zip t.col_styles).foldl (fun acc p => acc ++ p.1 ++ p.2) ""
  match t.seps.getLast? with
  | some last => Except.ok (base ++ last)
  | none => Except.error TexError.indexError

/-- The _texcmd helper: begin line with optional [opts] and \x7bargs\x7d,
indented body, end line. -/
def texcmd (cmd : String) (body : List String) (opts : Option String)
    (args : Option String) : List String :=
  ("\\begin\x7b" ++ cmd ++ "\x7d"
    ++ (match opts with | some o => "[" ++ o ++ "]" | none => "")
    ++ (match args with | some a => "\x7b" ++ a ++ "\x7d" | none => ""))
  :: (body.map (fun line => "    " ++ line) ++ ["\\end\x7b" ++ cmd ++ "\x7d"])

/-- The caption and label lines of render: the caption line is empty for a
missing or falsy (empty) caption, and a label without a caption raises. -/
def TexTable.captionLine (t : TexTable) : Except TexError String :=
  let caption_line0 := match t.caption with
    | some c => if c = "" then "" else "\\caption\x7b" ++ c ++ "\x7d"
    | none => ""
  match t.label with
  | none => Except.ok caption_line0
  | some lab => match t.caption with
    | none => Except.error
        (TexError.valueError ("Cannot have a label without a caption"))
    | some _ => Except.ok (caption_line0 ++ "\\label\x7b" ++ lab ++ "\x7d")

/-- TexTable.render. The source flattens a list whose elements are strings
and one already-built list of tabular lines; the flattening is spelled out
directly. -/
def TexTable.render (t : TexTable) : Except TexError String :=
  exbind (renderRows t.arena 0 t.table) (fun rows0 =>
    exbind (applyLines t.lines rows0) (fun rows1 =>
      exbind (applyRules (sortRules t.rules) 0 rows1) (fun rows2 =>
        exbind t.captionLine (fun caption_line =>
          exbind t.str_col_sty (fun sty =>
            let body :=
              [if t.centered then "\\centering" else "",
               if t.caption_after_table then "" else caption_line]
              ++ texcmd "tabular" rows2 none (some sty)
              ++ [if t.caption_after_table then caption_line else ""]
            Except.ok (String.intercalate "\n"
              (texcmd (t.cmd ++ if t.star then "*" else "") body
                (some t.position) none)))))))

/-- The slot order of TexTableSlice.__iter__: rows outer, columns inner, both
inclusive. -/
def rectSlots (row col to_row to_col : Nat) : List (Nat × Nat) :=
  (List.range' row (to_row + 1 - row)).flatMap
    (fun i => (List.range' col (to_col + 1 - col)).map (fun j => (i, j)))

/-- The grid reads performed while iterating a slice. -/
def getIds (g : List (List Nat)) : List (Nat × Nat) → Except TexError (List Nat)
  | [] => Except.ok []
  | p :: rest =>
    exbind (exGet2 g p.1 p.2) (fun id =>
      exbind (getIds g rest) (fun tail =>
        Except.ok (id :: tail)))

/-- All cell indices seen when iterating the slice rectangle. -/
def TexTable.rectIds (t : TexTable) (row col to_row to_col : Nat) :
    Except TexError (List Nat) :=
  getIds t.table (rectSlots row col to_row to_col)

/-- TexTableSlice.__init__ followed by the value property read: the cached
value is the raw value of the top-left cell when the slice is a single slot
or when every slot aliases that same cell object; the property raises when no
value was cached. -/
def TexTable.sliceValue (t : TexTable) (row col to_row to_col : Nat) :
    Except TexError String :=
  exbind (if row = to_row ∧ col = to_col then
      exbind (exGet2 t.table row col) (fun id0 =>
        exbind (exGet t.arena id0) (fun c0 =>
          Except.ok (some c0.raw_value)))
    else Except.ok none : Except TexError (Option String)) (fun v0 =>
    exbind (exGet2 t.table row col) (fun cid =>
      exbind (t.rectIds row col to_row to_col) (fun ids =>
        exbind (if ids.all (fun i => i == cid) then
            exbind (exGet t.arena cid) (fun cell =>
              Except.ok (some cell.raw_value))
          else Except.ok v0 : Except TexError (Option String)) (fun v1 =>
          match v1 with
          | some s => Except.ok s
          | none =>
            Except.error (TexError.valueError ("Table slice has multiple values"))))))

/-- Extract the table from a successful construction step; construction
chains in this file are proved successful, so the fallback is never used. -/
def getOk (x : Except TexError TexTable) : TexTable :=
  match x with
  | Except.ok t => t
  | Except.error _ => TexTable.new

/-- Chain an add_row call onto a construction step. -/
def thenRow (x : Except TexError TexTable) (vals : List (Option String)) :
    Except TexError TexTable :=
  match x with
  | Except.error e => Except.error e
  | Except.ok t => t.add_row vals 0

/-- A one-row table with values A and B in two default columns. -/
def tableAB : Except TexError TexTable :=
  TexTable.new.add_row [some "A", some "B"] 0

/-- The table after merging the full one-row rectangle of tableAB into a
single cell M of width 2. -/
def c2_t1 : Except TexError TexTable :=
  match tableAB with
  | Except.error e => Except.error e
  | Except.ok t => t.merge "M" 0 0 (some 2) (some 1) none none

/-- A second merge of the 1x1 rectangle at (0, 0), which lies fully inside
the rectangle merged by c2_t1. -/
def c2_t2 : Except TexError TexTable :=
  match c2_t1 with
  | Except.error e => Except.error e
  | Except.ok t => t.merge "N" 0 0 (some 1) (some 1) none none

/-- Counterexample to C2 as stated: the first merge of the full row succeeds,
and the second merge of a rectangle fully contained in the first merged
rectangle fails with the structural-overlap ValueError instead of
succeeding. -/
theorem C2_counterexample_inner_merge_fails :
    exIsOk c2_t1 = true ∧
      c2_t2 = Except.error (TexError.valueError mergeOverlapMsg) :=
  ⟨rfl, rfl⟩

/-- The merge call of C3 with both width and to_col supplied for the column
axis: width=2 conflicts with to_col=0 on a one-row, two-column table. -/
def c3_res : Except TexError TexTable :=
  (getOk tableAB).merge "X" 0 0 (some 2) (some 1) none (some 0)

/-- C3 as a code bug: merge with both width and to_col given does not raise.
The source constructs the ValueError for the conflict but never raises it,
so the call succeeds, to_col silently wins and every cell of the result is
1 wide even though width=2 was requested. -/
theorem C3_merge_conflicting_params_not_rejected :
    exIsOk c3_res = true ∧
      (getOk c3_res).arena.map TexTableCell.width = [1, 1, 1] :=
  ⟨rfl, rfl⟩

/-- A three-row, one-column table. -/
def c4_t : TexTable :=
  getOk (thenRow (thenRow (thenRow (Except.ok TexTable.new) [some "a"])
    [some "b"]) [some "c"])

/-- C4 as a code bug: on a 3-row table, add_rule with row=None records the
rule at row index 3, and render then raises instead of placing the bottom
rule as the last line of the row block, contradicting the add_rule
documentation that row=None places the rule after the last row. -/
theorem C4_bottom_rule_after_last_row_render_raises :
    c4_t.row_count = 3 ∧
      (c4_t.add_rule none RuleType.BOTTOM).render =
        Except.error (TexError.valueError ("Invalid rule index 3")) :=
  ⟨rfl, rfl⟩

/-- The 2x2 table of C7 with values A, B, C, D and default styles. -/
def c7_t : TexTable :=
  getOk (thenRow (thenRow (Except.ok TexTable.new) [some "A", some "B"])
    [some "C", some "D"])

/-- C7: the default 2x2 table renders to exactly the token sequence of the
two rows inside tabular with argument cc inside figure with option h!. -/
theorem C7_roundtrip_render :
    c7_t.render = Except.ok
      ("\\begin\x7bfigure\x7d[h!]\n    \\centering\n    \n    \\begin\x7btabular\x7d\x7bcc\x7d\n        A & B \\\\\n        C & D \\\\\n    \\end\x7btabular\x7d\n    \n\\end\x7bfigure\x7d") :=
  rfl

/-- The table of C8: add_col with two values on a fresh table, which grows
the row count by two inside add_col. -/
def c8_t : TexTable := getOk (TexTable.new.add_col ["a", "b"] 0)

/-- C8 as a code bug: after add_col on a fresh table with two values, the
column count and separator count satisfy their relation, but both grown rows
carry 2 slots instead of col_count = 1, because rows created by the growth
loop already received a cell for the new column and the final loop of
add_col appends another one. -/
theorem C8_add_col_breaks_row_length_invariant :
    c8_t.col_count = 1 ∧ c8_t.seps.length = 2 ∧
      c8_t.table.map List.length = [2, 2] :=
  ⟨rfl, rfl, rfl⟩

/-- A two-row, one-column table with full rules recorded at row 0 and at
row 2, the latter equal to the row count. -/
def c5_t : TexTable :=
  ((getOk (thenRow (thenRow (Except.ok TexTable.new) [some "a"]) [some "b"])).add_rule
    (some 0) RuleType.MID).add_rule (some 2) RuleType.MID

/-- Counterexample to C5 as stated: the table records a rule with row index
2, outside [0, row_count) = [0, 2), yet render succeeds, because the rule
bound is checked against the row list grown by the rules already inserted. -/
theorem C5_counterexample_rule_at_row_count_renders :
    ((2 : Int), "\\midrule") ∈ c5_t.rules ∧ c5_t.row_count = 2 ∧
      exIsOk c5_t.render = true := by
  refine ⟨by decide, rfl, rfl⟩

/-- The table of C6: two clines registered for row 0, first over column 1,
then over column 2. -/
def c6_t : TexTable :=
  ((getOk tableAB).add_cline (some 0) 0 (some 0)).add_cline (some 0) 1 (some 1)

/-- Counterexample to C6 as stated: the two partial lines registered for
row 0 appear in reverse registration order in the rendered row, the
later-registered cline 2-2 first, not in registration order. -/
theorem C6_counterexample_lines_reversed :
    c6_t.render = Except.ok
      ("\\begin\x7bfigure\x7d[h!]\n    \\centering\n    \n    \\begin\x7btabular\x7d\x7bcc\x7d\n        \\cline\x7b2-2\x7d \\cline\x7b1-1\x7d A & B \\\\\n    \\end\x7btabular\x7d\n    \n\\end\x7bfigure\x7d") ∧
    c6_t.render ≠ Except.ok
      ("\\begin\x7bfigure\x7d[h!]\n    \\centering\n    \n    \\begin\x7btabular\x7d\x7bcc\x7d\n        \\cline\x7b1-1\x7d \\cline\x7b2-2\x7d A & B \\\\\n    \\end\x7btabular\x7d\n    \n\\end\x7bfigure\x7d") :=
  ⟨rfl, by decide⟩

/-- The slot (row, col) lies inside the rectangle occupied by the cell. -/
def cellCovers (c : TexTableCell) (row col : Nat) : Bool :=
  decide (c.row ≤ row ∧ row < c.row + c.height ∧
    c.col ≤ col ∧ col < c.col + c.width)

/-- Every index of the row slice starting at column c refers to an arena
cell covering its slot. -/
def rowWF (arena : List TexTableCell) (r : Nat) : Nat → List Nat → Bool
  | _, [] => true
  | c, id :: rest =>
    (match exGet arena id with
     | Except.ok cell => cellCovers cell r c
     | Except.error _ => false) && rowWF arena r (c + 1) rest

/-- Every slot of the grid starting at row r refers to an arena cell
covering it: the well-formedness that every table built through the
add_row, add_col and merge API maintains. -/
def gridWF (arena : List TexTableCell) : Nat → List (List Nat) → Bool
  | _, [] => true
  | r, ids :: rest => rowWF arena r 0 ids && gridWF arena (r + 1) rest

/-- On a covered slot, table_value succeeds. -/
theorem table_value_ok (cell : TexTableCell) (r c : Nat)
    (h : cellCovers cell r c = true) :
    ∃ s, cell.table_value r c = Except.ok s := by
  obtain ⟨h1, h2, h3, h4⟩ := of_decide_eq_true h
  obtain ⟨b, hb⟩ := render_at_ok cell r c h1 h2 h3 h4
  unfold TexTableCell.table_value
  rw [if_neg (not_not_intro ⟨h1, h2⟩), if_neg (not_not_intro ⟨h3, h4⟩), hb]
  by_cases hc : r ≠ cell.row ∨ c = cell.col + cell.width - 1
  · exact ⟨_, if_pos hc⟩
  · exact ⟨_, if_neg hc⟩

/-- On a well-formed row slice, the cell comprehension succeeds. -/
theorem renderCells_ok (arena : List TexTableCell) (r : Nat) :
    ∀ (ids : List Nat) (c : Nat), rowWF arena r c ids = true →
    ∃ parts, renderCells arena r c ids = Except.ok parts := by
  intro ids
  induction ids with
  | nil => exact fun c _ => ⟨[], rfl⟩
  | cons id rest ih =>
    intro c h
    unfold rowWF at h
    rw [Bool.and_eq_true] at h
    obtain ⟨h1, h2⟩ := h
    cases hg : exGet arena id with
    | error e => rw [hg] at h1; simp at h1
    | ok cell =>
      rw [hg] at h1
      obtain ⟨s, hs⟩ := table_value_ok cell r c h1
      obtain ⟨tail, ht⟩ := ih (c + 1) h2
      exact ⟨s :: tail, by simp [renderCells, hg, hs, ht]⟩

/-- On a well-formed grid, the row comprehension succeeds and yields one
line per grid row. -/
theorem renderRows_ok (arena : List TexTableCell) :
    ∀ (grid : List (List Nat)) (r : Nat), gridWF arena r grid = true →
    ∃ rows, renderRows arena r grid = Except.ok rows ∧
      rows.length = grid.length := by
  intro grid
  induction grid with
  | nil => exact fun r _ => ⟨[], rfl, rfl⟩
  | cons ids rest ih =>
    intro r h
    unfold gridWF at h
    rw [Bool.and_eq_true] at h
    obtain ⟨h1, h2⟩ := h
    obtain ⟨parts, hp⟩ := renderCells_ok arena r ids 0 h1
    obtain ⟨tail, ht, hl⟩ := ih (r + 1) h2
    refine ⟨(removesuffix (String.join parts) " & " ++ " \\\\") :: tail, ?_, ?_⟩
    · simp [renderRows, hp, ht]
    · simp [hl]

/-- When every registered line row passes the bounds check, the
line-prepending loop succeeds and preserves the number of rows. -/
theorem applyLines_ok :
    ∀ (lines : List (Int × String)) (rows : List String),
    lines.all (fun p => pyIdxOk p.1 rows.length) = true →
    ∃ rows2, applyLines lines rows = Except.ok rows2 ∧
      rows2.length = rows.length := by
  intro lines
  induction lines with
  | nil => exact fun rows _ => ⟨rows, rfl, rfl⟩
  | cons p rest ih =>
    intro rows h
    rw [List.all_cons, Bool.and_eq_true] at h
    obtain ⟨h1, h2⟩ := h
    have hlen : (rows.set p.1.toNat (p.2 ++ " " ++ rows.getD p.1.toNat "")).length
        = rows.length := List.length_set rows _ _
    obtain ⟨rows2, hr, hl⟩ := ih _ (by rw [hlen]; exact h2)
    refine ⟨rows2, ?_, by rw [hl, hlen]⟩
    simp only [applyLines, h1, if_true]
    exact hr

/-- When some registered line row fails the bounds check, the
line-prepending loop raises a ValueError. -/
theorem applyLines_error :
    ∀ (lines : List (Int × String)) (rows : List String),
    lines.all (fun p => pyIdxOk p.1 rows.length) = false →
    ∃ msg, applyLines lines rows = Except.error (TexError.valueError msg) := by
  intro lines
  induction lines with
  | nil => intro rows h; simp at h
  | cons p rest ih =>
    intro rows h
    rw [List.all_cons] at h
    by_cases h1 : pyIdxOk p.1 rows.length
    · rw [h1, Bool.true_and] at h
      have hlen : (rows.set p.1.toNat (p.2 ++ " " ++ rows.getD p.1.toNat "")).length
          = rows.length := List.length_set rows _ _
      obtain ⟨msg, hr⟩ := ih _ (by rw [hlen]; exact h)
      refine ⟨msg, ?_⟩
      simp only [applyLines, h1, if_true]
      exact hr
    · rw [Bool.not_eq_true] at h1
      exact ⟨"Invalid line index " ++ toString p.1, by simp [applyLines, h1]⟩

/-- Python list.insert always grows the list by one element. -/
theorem pyInsert_length {α : Type} :
    ∀ (l : List α) (n : Nat) (a : α), (pyInsert l n a).length = l.length + 1 := by
  intro l
  induction l with
  | nil => intro n a; cases n <;> rfl
  | cons x xs ih =>
    intro n a
    cases n with
    | zero => rfl
    | succ m => simp [pyInsert, ih]

/-- The bound that the sorted rules actually face: the k-th rule is checked
against a row list already grown by the k rules inserted before it. -/
def rulesIdxOk (n : Nat) : List (Int × String) → Bool
  | [] => true
  | p :: rest => pyIdxOk p.1 n && rulesIdxOk (n + 1) rest

/-- When every rule row passes its growing bounds check, the rule-inserting
loop succeeds. -/
theorem applyRules_ok :
    ∀ (list : List (Int × String)) (added : Nat) (rows : List String),
    rulesIdxOk rows.length list = true →
    ∃ rows2, applyRules list added rows = Except.ok rows2 := by
  intro list
  induction list with
  | nil => exact fun added rows _ => ⟨rows, rfl⟩
  | cons p rest ih =>
    intro added rows h
    unfold rulesIdxOk at h
    rw [Bool.and_eq_true] at h
    obtain ⟨h1, h2⟩ := h
    obtain ⟨rows2, hr⟩ := ih (added + 1) (pyInsert rows (p.1.toNat + added) p.2)
      (by rw [pyInsert_length]; exact h2)
    refine ⟨rows2, ?_⟩
    simp only [applyRules, h1, if_true]
    exact hr

/-- When some rule row fails its growing bounds check, the rule-inserting
loop raises a ValueError. -/
theorem applyRules_error :
    ∀ (list : List (Int × String)) (added : Nat) (rows : List String),
    rulesIdxOk rows.length list = false →
    ∃ msg, applyRules list added rows = Except.error (TexError.valueError msg) := by
  intro list
  induction list with
  | nil => intro added rows h; simp [rulesIdxOk] at h
  | cons p rest ih =>
    intro added rows h
    unfold rulesIdxOk at h
    by_cases h1 : pyIdxOk p.1 rows.length
    · rw [h1, Bool.true_and] at h
      obtain ⟨msg, hr⟩ := ih (added + 1) (pyInsert rows (p.1.toNat + added) p.2)
        (by rw [pyInsert_length]; exact h)
      refine ⟨msg, ?_⟩
      simp only [applyRules, h1, if_true]
      exact hr
    · rw [Bool.not_eq_true] at h1
      exact ⟨"Invalid rule index " ++ toString p.1, by simp [applyRules, h1]⟩

/-- The label-without-caption failure condition of render. -/
def label_no_caption (t : TexTable) : Bool := t.label.isSome && t.caption.isNone

/-- Some registered partial line has a row index outside [0, row_count). -/
def lines_idx_bad (t : TexTable) : Bool :=
  !(t.lines.all (fun p => pyIdxOk p.1 t.row_count))

/-- Some rule row index, taken in stable sorted order, falls outside the
growing bound [0, row_count + k) that the k-th inserted rule is checked
against. -/
def rules_idx_bad (t : TexTable) : Bool :=
  !(rulesIdxOk t.row_count (sortRules t.rules))

/-- Without a label, or with both label and caption, the caption step of
render succeeds. -/
theorem captionLine_ok (t : TexTable) (h : label_no_caption t = false) :
    ∃ cl, t.captionLine = Except.ok cl := by
  unfold TexTable.captionLine
  cases hl : t.label with
  | none => exact ⟨_, rfl⟩
  | some lab =>
    cases hc : t.caption with
    | none => simp [label_no_caption, hl, hc] at h
    | some c => exact ⟨_, rfl⟩

/-- With a label and no caption, the caption step of render raises. -/
theorem captionLine_error (t : TexTable) (h : label_no_caption t = true) :
    t.captionLine =
      Except.error (TexError.valueError ("Cannot have a label without a caption")) := by
  unfold label_no_caption at h
  rw [Bool.and_eq_true] at h
  obtain ⟨hl, hc⟩ := h
  obtain ⟨lab, hlab⟩ := Option.isSome_iff_exists.mp hl
  have hcap : t.caption = none := Option.isNone_iff_eq_none.mp hc
  unfold TexTable.captionLine
  rw [hlab, hcap]

/-- With at least one column created, the column specification assembles. -/
theorem str_col_sty_ok (t : TexTable) (h : t.seps ≠ []) :
    ∃ sty, t.str_col_sty = Except.ok sty := by
  unfold TexTable.str_col_sty
  obtain ⟨last, hlast⟩ := Option.isSome_iff_exists.mp
    (List.getLast?_isSome.mpr h)
  rw [hlast]
  exact ⟨_, rfl⟩

/-- With no separator ever created, the final seps[-1] read raises
IndexError. -/
theorem str_col_sty_empty (t : TexTable) (h : t.seps = []) :
    t.str_col_sty = Except.error TexError.indexError := by
  unfold TexTable.str_col_sty
  rw [h]
  rfl

/-- C5 amended: for a table whose grid slots all reference valid covering
cells and whose separator list is empty exactly when it has no columns
(true of every table built through the API), render fails if and only if
some partial-line row index lies outside [0, row_count), or some rule row
index taken in stable sorted order lies outside the growing bound
[0, row_count + k) for the k-th rule, or a label is set without a caption,
or the table has no columns. -/
theorem C5_amended_render_failure_characterization (t : TexTable)
    (hwf : gridWF t.arena 0 t.table = true)
    (hseps : t.seps = [] ↔ t.col_count = 0) :
    exIsOk t.render = false ↔
      (lines_idx_bad t || rules_idx_bad t || label_no_caption t ||
        decide (t.col_count = 0)) = true := by
  obtain ⟨rows0, hrr, hlen0⟩ := renderRows_ok t.arena t.table 0 hwf
  by_cases hb1 : lines_idx_bad t = true
  · have hall : t.lines.all (fun p => pyIdxOk p.1 t.row_count) = false := by
      revert hb1
      unfold lines_idx_bad
      cases hx : t.lines.all (fun p => pyIdxOk p.1 t.row_count) <;> simp [hx]
    obtain ⟨msg, hale⟩ := applyLines_error t.lines rows0
      (by rw [hlen0]; exact hall)
    have hrender : t.render = Except.error (TexError.valueError msg) := by
      unfold TexTable.render
      rw [hrr]
      simp only [exbind_ok]
      rw [hale]
      simp only [exbind_error]
    rw [hrender, hb1]
    simp [exIsOk]
  · have hl : t.lines.all (fun p => pyIdxOk p.1 t.row_count) = true := by
      revert hb1
      unfold lines_idx_bad
      cases hx : t.lines.all (fun p => pyIdxOk p.1 t.row_count) <;> simp [hx]
    obtain ⟨rows1, hal, hlen1⟩ := applyLines_ok t.lines rows0
      (by rw [hlen0]; exact hl)
    by_cases hb2 : rules_idx_bad t = true
    · have hrulesF : rulesIdxOk t.row_count (sortRules t.rules) = false := by
        revert hb2
        unfold rules_idx_bad
        cases hx : rulesIdxOk t.row_count (sortRules t.rules) <;> simp [hx]
      obtain ⟨msg, har⟩ := applyRules_error (sortRules t.rules) 0 rows1
        (by rw [hlen1, hlen0]; exact hrulesF)
      have hrender : t.render = Except.error (TexError.valueError msg) := by
        unfold TexTable.render
        rw [hrr]
        simp only [exbind_ok]
        rw [hal]
        simp only [exbind_ok]
        rw [har]
        simp only [exbind_error]
      rw [hrender, hb2]
      simp [exIsOk]
    · have hrulesT : rulesIdxOk t.row_count (sortRules t.rules) = true := by
        revert hb2
        unfold rules_idx_bad
        cases hx : rulesIdxOk t.row_count (sortRules t.rules) <;> simp [hx]
      obtain ⟨rows2, har⟩ := applyRules_ok (sortRules t.rules) 0 rows1
        (by rw [hlen1, hlen0]; exact hrulesT)
      by_cases hb3 : label_no_caption t = true
      · have hcap := captionLine_error t hb3
        have hrender : t.render = Except.error
            (TexError.valueError ("Cannot have a label without a caption")) := by
          unfold TexTable.render
          rw [hrr]
          simp only [exbind_ok]
          rw [hal]
          simp only [exbind_ok]
          rw [har]
          simp only [exbind_ok]
          rw [hcap]
          simp only [exbind_error]
        rw [hrender, hb3]
        simp [exIsOk]
      · have hb3F : label_no_caption t = false := by
          revert hb3
          cases hx : label_no_caption t <;> simp [hx]
        obtain ⟨cl, hcap⟩ := captionLine_ok t hb3F
        by_cases hb4 : t.col_count = 0
        · have hse : t.seps = [] := hseps.mpr hb4
          have hsty := str_col_sty_empty t hse
          have hrender : t.render = Except.error TexError.indexError := by
            unfold TexTable.render
            rw [hrr]
            simp only [exbind_ok]
            rw [hal]
            simp only [exbind_ok]
            rw [har]
            simp only [exbind_ok]
            rw [hcap]
            simp only [exbind_ok]
            rw [hsty]
            simp only [exbind_error]
          rw [hrender]
          simp [exIsOk, hb4]
        · have hse : t.seps ≠ [] := fun hh => hb4 (hseps.mp hh)
          obtain ⟨sty, hsty⟩ := str_col_sty_ok t hse
          have hok : exIsOk t.render = true := by
            unfold TexTable.render
            rw [hrr]
            simp only [exbind_ok]
            rw [hal]
            simp only [exbind_ok]
            rw [har]
            simp only [exbind_ok]
            rw [hcap]
            simp only [exbind_ok]
            rw [hsty]
            simp only [exbind_ok]
            rfl
          have hb1F : lines_idx_bad t = false := by
            revert hb1
            cases hx : lines_idx_bad t <;> simp [hx]
          have hb2F : rules_idx_bad t = false := by
            revert hb2
            cases hx : rules_idx_bad t <;> simp [hx]
          rw [hok]
          simp [hb1F, hb2F, hb3F, hb4]

/-- Witness for the amended C5 at the two-row table carrying rules at rows
0 and 2: the right side is false there and render indeed succeeds. -/
theorem C5_amended_witness :
    exIsOk c5_t.render = false ↔
      (lines_idx_bad c5_t || rules_idx_bad c5_t || label_no_caption c5_t ||
        decide (c5_t.col_count = 0)) = true :=
  C5_amended_render_failure_characterization c5_t (by decide) (by decide)

/-- C10: a table with zero columns never renders to a string; moreover, when
the other render validations pass (well-formed grid, line and rule rows in
bounds, no label-without-caption), the failure is precisely the IndexError
raised by the seps[-1] read while assembling the column specification. -/
theorem C10_zero_columns_render_fails (t : TexTable)
    (_h0 : t.col_count = 0) (hs : t.seps = []) :
    exIsOk t.render = false ∧
      (gridWF t.arena 0 t.table = true → lines_idx_bad t = false →
        rules_idx_bad t = false → label_no_caption t = false →
        t.render = Except.error TexError.indexError) := by
  constructor
  · unfold TexTable.render
    cases hrr : renderRows t.arena 0 t.table with
    | error e => simp [exIsOk]
    | ok rows0 =>
      simp only [exbind_ok]
      cases hal : applyLines t.lines rows0 with
      | error e => simp [exIsOk]
      | ok rows1 =>
        simp only [exbind_ok]
        cases har : applyRules (sortRules t.rules) 0 rows1 with
        | error e => simp [exIsOk]
        | ok rows2 =>
          simp only [exbind_ok]
          cases hcap : t.captionLine with
          | error e => simp [exIsOk]
          | ok cl =>
            simp only [exbind_ok]
            rw [str_col_sty_empty t hs]
            simp [exIsOk]
  · intro hwf hb1 hb2 hb3
    obtain ⟨rows0, hrr, hlen0⟩ := renderRows_ok t.arena t.table 0 hwf
    have hl : t.lines.all (fun p => pyIdxOk p.1 t.row_count) = true := by
      revert hb1
      unfold lines_idx_bad
      cases hx : t.lines.all (fun p => pyIdxOk p.1 t.row_count) <;> simp [hx]
    obtain ⟨rows1, hal, hlen1⟩ := applyLines_ok t.lines rows0
      (by rw [hlen0]; exact hl)
    have hrulesT : rulesIdxOk t.row_count (sortRules t.rules) = true := by
      revert hb2
      unfold rules_idx_bad
      cases hx : rulesIdxOk t.row_count (sortRules t.rules) <;> simp [hx]
    obtain ⟨rows2, har⟩ := applyRules_ok (sortRules t.rules) 0 rows1
      (by rw [hlen1, hlen0]; exact hrulesT)
    obtain ⟨cl, hcap⟩ := captionLine_ok t hb3
    unfold TexTable.render
    rw [hrr]
    simp only [exbind_ok]
    rw [hal]
    simp only [exbind_ok]
    rw [har]
    simp only [exbind_ok]
    rw [hcap]
    simp only [exbind_ok]
    rw [str_col_sty_empty t hs]
    simp only [exbind_error]

/-- Witness for C10 at the freshly constructed table. -/
theorem C10_zero_columns_render_fails_witness :
    TexTable.new.render = Except.error TexError.indexError :=
  (C10_zero_columns_render_fails TexTable.new rfl rfl).2 rfl rfl rfl rfl

/-- Both grid reads of the merge validation loop succeed at this slot. -/
def slotGetsOk (arena : List TexTableCell) (grid : List (List Nat))
    (p : Int × Int) : Bool :=
  match exGet2 grid p.1.toNat p.2.toNat with
  | Except.error _ => false
  | Except.ok id =>
    match exGet arena id with
    | Except.error _ => false
    | Except.ok _ => true

/-- The cell found at this slot trips the merge validation: its anchor row
lies above the visited row, or its anchor column lies left of the rectangle,
or it ends below or right of the rectangle. -/
def slotOffends (arena : List TexTableCell) (grid : List (List Nat))
    (col to_row to_col : Int) (p : Int × Int) : Bool :=
  match exGet2 grid p.1.toNat p.2.toNat with
  | Except.error _ => false
  | Except.ok id =>
    match exGet arena id with
    | Except.error _ => false
    | Except.ok cell =>
      decide (cell.bounds.1 < p.1 ∨ cell.bounds.2.1 < col ∨
        to_row < cell.bounds.2.2.1 ∨ to_col < cell.bounds.2.2.2)

/-- If every visited slot is readable and some visited slot trips the
validation, the merge validation loop raises the structural-overlap
ValueError. -/
theorem mergeCheck_error (arena : List TexTableCell) (grid : List (List Nat))
    (col to_row to_col : Int) :
    ∀ (slots : List (Int × Int)),
    slots.all (slotGetsOk arena grid) = true →
    slots.any (slotOffends arena grid col to_row to_col) = true →
    mergeCheck arena grid col to_row to_col slots =
      Except.error (TexError.valueError mergeOverlapMsg) := by
  intro slots
  induction slots with
  | nil => intro _ hany; simp at hany
  | cons p rest ih =>
    intro hall hany
    rw [List.all_cons, Bool.and_eq_true] at hall
    obtain ⟨hp, hrest⟩ := hall
    rw [List.any_cons] at hany
    cases hg : exGet2 grid p.1.toNat p.2.toNat with
    | error e =>
      unfold slotGetsOk at hp
      simp only [hg] at hp
      simp at hp
    | ok id =>
      cases hc : exGet arena id with
      | error e =>
        unfold slotGetsOk at hp
        simp only [hg] at hp
        simp only [hc] at hp
        simp at hp
      | ok cell =>
        by_cases hoff : cell.bounds.1 < p.1 ∨ cell.bounds.2.1 < col ∨
            to_row < cell.bounds.2.2.1 ∨ to_col < cell.bounds.2.2.2
        · simp [mergeCheck, hg, hc, hoff]
        · have hpo : slotOffends arena grid col to_row to_col p = false := by
            unfold slotOffends
            simp only [hg, hc]
            simp [hoff]
          rw [hpo, Bool.false_or] at hany
          simp [mergeCheck, hg, hc, hoff, ih hrest hany]

/-- C2 amended: for every table, a merge whose anchor and resolved rectangle
lie inside the grid fails with the structural-overlap ValueError whenever
every slot of the rectangle is readable and some slot of the rectangle holds
a cell that trips the validation: one anchored above the visited row, or
anchored left of the rectangle, or ending below or right of it. In
particular, after a successful merge, a second merge of a rectangle that
partially overlaps the merged cell fails, and a second merge of a rectangle
lying strictly inside the earlier merged rectangle also fails, because the
merged cell escapes the smaller rectangle on some side. -/
theorem C2_amended_merge_overlap_fails (t : TexTable) (value : String)
    (row col w h : Int)
    (h1 : 0 ≤ row) (h2 : row < (t.table.length : Int))
    (h3 : 0 ≤ col) (h4 : col < (t.col_count : Int))
    (h5 : 1 ≤ h) (h6 : row + h - 1 < (t.table.length : Int))
    (h7 : 1 ≤ w) (h8 : col + w - 1 < (t.col_count : Int))
    (hall : (mergeSlots row (row + h - 1) col (col + w - 1)).all
      (slotGetsOk t.arena t.table) = true)
    (hany : (mergeSlots row (row + h - 1) col (col + w - 1)).any
      (slotOffends t.arena t.table col (row + h - 1) (col + w - 1)) = true) :
    t.merge value row col (some w) (some h) none none =
      Except.error (TexError.valueError mergeOverlapMsg) := by
  unfold TexTable.merge
  rw [if_neg (not_not_intro ⟨h1, h2⟩), if_neg (not_not_intro ⟨h3, h4⟩)]
  simp only [exbind_ok]
  rw [if_neg (not_not_intro ⟨by omega, h6⟩), if_neg (not_not_intro ⟨by omega, h8⟩)]
  rw [mergeCheck_error t.arena t.table col (row + h - 1) (col + w - 1)
    (mergeSlots row (row + h - 1) col (col + w - 1)) hall hany]
  simp only [exbind_error]

/-- The table holding the merged two-column cell M of c2_t1. -/
def c2_tM : TexTable := getOk c2_t1

/-- Witness for the amended C2: remerging the strictly smaller 1x1 rectangle
at the anchor of the merged 1x2 cell raises the structural-overlap error. -/
theorem C2_amended_witness :
    c2_tM.merge "N" 0 0 (some 1) (some 1) none none =
      Except.error (TexError.valueError mergeOverlapMsg) :=
  C2_amended_merge_overlap_fails c2_tM "N" 0 0 1 1 (by decide) (by decide)
    (by decide) (by decide) (by decide) (by decide) (by decide) (by decide)
    (by decide) (by decide)

/-- The texts registered for row r, in registration order. -/
def linesFor (lines : List (Int × String)) (r : Nat) : List String :=
  (lines.filter (fun p => p.1 == (r : Int))).map Prod.snd

/-- Reading every position of a list through getD reproduces the list. -/
theorem map_range_getD {α : Type} (d : α) :
    ∀ (l : List α), (List.range l.length).map (fun r => l.getD r d) = l := by
  intro l
  induction l with
  | nil => rfl
  | cons x xs ih =>
    rw [List.length_cons, List.range_succ_eq_map, List.map_cons, List.map_map]
    have hcomp : ((fun r => (x :: xs).getD r d) ∘ Nat.succ)
        = (fun r => xs.getD r d) := by
      funext r
      simp
    rw [hcomp, ih]
    rfl

/-- Overwriting a position and reading it back through getD. -/
theorem getD_set_self {α : Type} :
    ∀ (l : List α) (n : Nat) (a d : α), n < l.length →
      (l.set n a).getD n d = a := by
  intro l
  induction l with
  | nil => intro n a d h; simp at h
  | cons x xs ih =>
    intro n a d h
    cases n with
    | zero => rfl
    | succ m =>
      show (x :: xs.set m a).getD (m + 1) d = a
      rw [List.getD_cons_succ]
      exact ih m a d (by simpa using h)

/-- Reading any other position through getD is unchanged by set. -/
theorem getD_set_ne {α : Type} :
    ∀ (l : List α) (n m : Nat) (a d : α), n ≠ m →
      (l.set n a).getD m d = l.getD m d := by
  intro l
  induction l with
  | nil => intro n m a d _; cases n <;> rfl
  | cons x xs ih =>
    intro n m a d h
    cases n with
    | zero =>
      cases m with
      | zero => exact absurd rfl h
      | succ k => rfl
    | succ j =>
      cases m with
      | zero => rfl
      | succ k =>
        show (x :: xs.set j a).getD (k + 1) d = (x :: xs).getD (k + 1) d
        rw [List.getD_cons_succ, List.getD_cons_succ]
        exact ih j k a d (fun hh => h (by rw [hh]))

/-- C6 amended: when every registered line row is in bounds, the
line-prepending stage of render rewrites each row to the registered texts
of that row in reverse registration order, each followed by one space, in
front of the original row text: processing prepends in registration order,
so the last registered line ends up leftmost. -/
theorem C6_amended_lines_reverse_registration_order :
    ∀ (lines : List (Int × String)) (rows : List String),
    lines.all (fun p => pyIdxOk p.1 rows.length) = true →
    applyLines lines rows = Except.ok ((List.range rows.length).map
      (fun r => (linesFor lines r).foldl (fun acc tl => tl ++ " " ++ acc)
        (rows.getD r ""))) := by
  intro lines
  induction lines with
  | nil =>
    intro rows _
    simp only [applyLines, linesFor, List.filter_nil, List.map_nil,
      List.foldl_nil]
    rw [map_range_getD]
  | cons p rest ih =>
    intro rows h
    rw [List.all_cons, Bool.and_eq_true] at h
    obtain ⟨h1, h2⟩ := h
    obtain ⟨hp0, hplen⟩ := of_decide_eq_true h1
    have hpn : p.1.toNat < rows.length := by omega
    have hlen2 : (rows.set p.1.toNat (p.2 ++ " " ++ rows.getD p.1.toNat "")).length
        = rows.length := List.length_set rows _ _
    have hstep : applyLines (p :: rest) rows =
        applyLines rest (rows.set p.1.toNat (p.2 ++ " " ++ rows.getD p.1.toNat "")) := by
      simp only [applyLines, h1, if_true]
    rw [hstep, ih _ (by rw [hlen2]; exact h2)]
    congr 1
    rw [hlen2]
    apply List.map_congr_left
    intro r hr
    rw [List.mem_range] at hr
    by_cases hpr : p.1 = (r : Int)
    · have hptn : p.1.toNat = r := by omega
      rw [hptn, getD_set_self rows r _ "" hr]
      have hfilter : linesFor (p :: rest) r = p.2 :: linesFor rest r := by
        unfold linesFor
        rw [List.filter_cons, if_pos (by simp [hpr])]
        rfl
      rw [hfilter, List.foldl_cons]
    · have hptn : p.1.toNat ≠ r := by omega
      rw [getD_set_ne rows p.1.toNat r _ "" hptn]
      have hfilter : linesFor (p :: rest) r = linesFor rest r := by
        unfold linesFor
        rw [List.filter_cons, if_neg (by simp [hpr])]
      rw [hfilter]

/-- Witness for the amended C6: two lines registered for row 0 of a single
row come out as the second line, then the first, then the row text. -/
theorem C6_amended_witness :
    applyLines [((0 : Int), "L1"), ((0 : Int), "L2")] ["row"] =
      Except.ok ((List.range (["row"] : List String).length).map
        (fun r => (linesFor [((0 : Int), "L1"), ((0 : Int), "L2")] r).foldl
          (fun acc tl => tl ++ " " ++ acc) ((["row"] : List String).getD r ""))) :=
  C6_amended_lines_reverse_registration_order
    [((0 : Int), "L1"), ((0 : Int), "L2")] ["row"] (by decide)

/-- C9: given the slot reads of a slice rectangle (the cell indices ids seen
while iterating it, the index cid of the top-left cell and the cell record
it refers to), the single-value read returns the raw text of the shared
cell exactly when every slot of the rectangle references that same cell
object, and raises the ambiguous-value ValueError exactly when some slot
references a different cell object. -/
theorem C9_slice_single_value (t : TexTable) (row col to_row to_col : Nat)
    (ids : List Nat) (cid : Nat) (cell : TexTableCell)
    (hids : t.rectIds row col to_row to_col = Except.ok ids)
    (hcid : exGet2 t.table row col = Except.ok cid)
    (hcell : exGet t.arena cid = Except.ok cell) :
    (ids.all (fun i => i == cid) = true →
      t.sliceValue row col to_row to_col = Except.ok cell.raw_value) ∧
    (ids.all (fun i => i == cid) = false →
      t.sliceValue row col to_row to_col =
        Except.error (TexError.valueError ("Table slice has multiple values"))) := by
  constructor
  · intro hall
    unfold TexTable.sliceValue
    by_cases hsingle : row = to_row ∧ col = to_col
    · rw [if_pos hsingle, hcid]
      simp only [exbind_ok]
      rw [hcell]
      simp only [exbind_ok]
      rw [hids]
      simp only [exbind_ok]
      rw [if_pos hall]
      simp only [hcell, exbind_ok]
    · rw [if_neg hsingle]
      simp only [exbind_ok]
      rw [hcid]
      simp only [exbind_ok]
      rw [hids]
      simp only [exbind_ok]
      rw [if_pos hall]
      simp only [hcell, exbind_ok]
  · intro hall
    by_cases hsingle : row = to_row ∧ col = to_col
    · have hone : t.rectIds row col to_row to_col = Except.ok [cid] := by
        unfold TexTable.rectIds rectSlots
        rw [← hsingle.1, ← hsingle.2]
        have h1 : row + 1 - row = 1 := by omega
        have h2 : col + 1 - col = 1 := by omega
        rw [h1, h2]
        simp [List.range', getIds, hcid]
      rw [hone] at hids
      rw [(Except.ok.inj hids).symm] at hall
      simp at hall
    · unfold TexTable.sliceValue
      rw [if_neg hsingle]
      simp only [exbind_ok]
      rw [hcid]
      simp only [exbind_ok]
      rw [hids]
      simp only [exbind_ok]
      rw [if_neg (by simp [hall])]
      simp only [exbind_ok]

/-- The one-row table with the two distinct cells A and B. -/
def c9w_t : TexTable := getOk tableAB

/-- The top-left cell of c9w_t. -/
def c9w_cell : TexTableCell := TexTableCell.mk1 "A" 0 0 "" ""

/-- Witness for C9: reading the slice over both distinct cells of a one-row
table raises the ambiguous-value error. -/
theorem C9_slice_single_value_witness :
    c9w_t.sliceValue 0 0 0 1 =
      Except.error (TexError.valueError ("Table slice has multiple values")) :=
  (C9_slice_single_value c9w_t 0 0 0 1 [0, 1] 0 c9w_cell (by decide) (by decide)
    (by decide)).2 (by decide)
